import Mathlib

/-!
Verification development for the weather-station data generator
(`src/generator/generator.py`).

Modelling conventions:
* Python floats are modelled as rationals (`ℚ`); all arithmetic in the source
  is elementary, so the embedding is exact on the rationals.
* Every call to the `random` module (Gaussian and uniform draws, `randint`,
  `choice`) is an explicit input of the embedded function, so theorems
  quantify over all possible draws; range facts such as `random.random() ∈
  [0,1)` become hypotheses where they matter.
* Python `round(x, 2)` is modelled exactly: rounding to a multiple of `1/100`
  with ties going to the even multiple.
* The seasonal factor `sin((hour - 4)·π/12)` is the only irrational quantity;
  it is computed by the separate method `_get_seasonal_factor` in the source,
  modelled over `ℝ` as `get_seasonal_factor` below, and `generate` takes its
  value as the parameter `seasonal_factor` (with `-1 ≤ s ≤ 1` as a hypothesis
  where a theorem needs it, which is satisfied by every sine value).
-/

namespace Weather

/-- Rounding of a rational to an integer with ties to even, the rounding rule
of Python's builtin `round`. -/
def roundTiesEven (y : ℚ) : ℤ :=
  if y - ⌊y⌋ < 1/2 then ⌊y⌋
  else if 1/2 < y - ⌊y⌋ then ⌊y⌋ + 1
  else if 2 ∣ ⌊y⌋ then ⌊y⌋ else ⌊y⌋ + 1

/-- Python `round(x, 2)`: round to two decimal places. -/
def round2 (x : ℚ) : ℚ := (roundTiesEven (100 * x) : ℚ) / 100

/-- The Python clamping pattern `max(lo, min(hi, x))` used throughout the
generator. -/
def clamp (lo hi x : ℚ) : ℚ := max lo (min hi x)

/-- `WIND_DIRECTIONS` from the source: the 8-point compass labels. -/
def WIND_DIRECTIONS : List String := [("N"), ("NE"), ("E"), ("SE"), ("S"), ("SW"), ("W"), ("NW")]

/-- `WEATHER_CONDITIONS` from the source: the default weighted condition list
(labels are the source's Russian strings: Ясно = Clear, Малооблачно =
PartlyCloudy, Облачно = Cloudy, Пасмурно = Overcast, Небольшой дождь =
LightRain, Дождь = Rain, Гроза = Thunderstorm, Туман = Fog). -/
def WEATHER_CONDITIONS : List (String × ℚ) :=
  [("Ясно", 0.25), ("Малооблачно", 0.20), ("Облачно", 0.20), ("Пасмурно", 0.15),
   ("Небольшой дождь", 0.10), ("Дождь", 0.05), ("Гроза", 0.03), ("Туман", 0.02)]

/-- The rain-regime weighted list built inside `generate` when
`pressure < 1000 and humidity > 70`. -/
def rain_weather_choices : List (String × ℚ) :=
  [("Пасмурно", 0.3), ("Небольшой дождь", 0.3), ("Дождь", 0.25), ("Гроза", 0.1), ("Туман", 0.05)]

/-- The high-pressure weighted list built inside `generate` when
`pressure > 1020`. -/
def high_pressure_choices : List (String × ℚ) :=
  [("Ясно", 0.5), ("Малооблачно", 0.35), ("Облачно", 0.15)]

/-- The loop of `_weighted_choice`: walk the list accumulating weight in
`upto`, returning the first entry with `upto + weight >= r`. -/
def weighted_choice_go {α : Type} (r : ℚ) : ℚ → List (α × ℚ) → Option α
  | _, [] => none
  | upto, (c, w) :: rest => if r ≤ upto + w then some c else weighted_choice_go r (upto + w) rest

/-- `total = sum(weight for _, weight in choices)` in `_weighted_choice`. -/
def total_weight {α : Type} (choices : List (α × ℚ)) : ℚ := (choices.map Prod.snd).sum

/-- `WeatherDataGenerator._weighted_choice`, with the uniform draw
`r = random.uniform(0, total)` passed explicitly.  The loop returns the first
entry whose running total reaches `r`; if the loop falls through, the source
returns `choices[-1][0]` (the last entry), which on the empty list would be an
index error, hence `Option`. -/
def weighted_choice {α : Type} (choices : List (α × ℚ)) (r : ℚ) : Option α :=
  match weighted_choice_go r 0 choices with
  | some c => some c
  | none => choices.getLast?.map Prod.fst

/-- Entries paired with their cumulative weights, starting from `acc`
(used only to state the spec-side description of the selection algorithm). -/
def cumul_weights {α : Type} (acc : ℚ) : List (α × ℚ) → List (α × ℚ)
  | [] => []
  | (c, w) :: rest => (c, acc + w) :: cumul_weights (acc + w) rest

/-- Modelled from the spec's words (refinement target for the selection
algorithm): return the first entry whose cumulative weight is `≥ r`, falling
back to the last entry if none matched. -/
def spec_first_match {α : Type} (choices : List (α × ℚ)) (r : ℚ) : Option α :=
  match (cumul_weights 0 choices).find? (fun p => decide (r ≤ p.2)) with
  | some p => some p.1
  | none => choices.getLast?.map Prod.fst

/-- The latent state of `WeatherDataGenerator` (its instance attributes). -/
structure StationState where
  base_temperature : ℚ
  base_humidity : ℚ
  base_pressure : ℚ
  base_wind_speed : ℚ
  current_direction_idx : ℤ
  time_counter : ℤ
  deriving DecidableEq

/-- The uniform draws of `WeatherDataGenerator.__init__`. -/
structure InitDraws where
  temperature : ℚ
  humidity : ℚ
  pressure : ℚ
  wind_speed : ℚ
  direction_idx : ℤ
  deriving DecidableEq

/-- `WeatherDataGenerator.__init__`: seed the latent state from the uniform
draws; `time_counter` starts at 0. -/
def init_state (d : InitDraws) : StationState :=
  ⟨d.temperature, d.humidity, d.pressure, d.wind_speed, d.direction_idx, 0⟩

/-- The ranges of the seeding draws in `__init__`: `uniform(15, 25)`,
`uniform(40, 70)`, `uniform(1000, 1025)`, `uniform(1, 5)`,
`randint(0, len(WIND_DIRECTIONS) - 1)`. -/
def InitRange (d : InitDraws) : Prop :=
  15 ≤ d.temperature ∧ d.temperature ≤ 25 ∧ 40 ≤ d.humidity ∧ d.humidity ≤ 70 ∧
  1000 ≤ d.pressure ∧ d.pressure ≤ 1025 ∧ 1 ≤ d.wind_speed ∧ d.wind_speed ≤ 5 ∧
  0 ≤ d.direction_idx ∧ d.direction_idx ≤ 7

instance : DecidablePred InitRange := fun d => by unfold InitRange; infer_instance

/-- The random draws consumed by one call of `generate`, in source order. -/
structure Draws where
  temperature_variation : ℚ
  temperature_noise : ℚ
  humidity_variation : ℚ
  humidity_noise : ℚ
  pressure_variation : ℚ
  pressure_noise : ℚ
  wind_variation : ℚ
  gust_draw : ℚ
  wind_noise : ℚ
  direction_draw : ℚ
  direction_choice : ℤ
  condition_draw : ℚ
  deriving DecidableEq

/-- The dictionary returned by `generate`. -/
structure WeatherReading where
  temperature : ℚ
  humidity : ℚ
  pressure : ℚ
  wind_speed : ℚ
  wind_direction : String
  weather_condition : String
  deriving DecidableEq

/-- Python list indexing `l[i]` for an `int` index: in-range indices read
directly, negative indices count from the end, anything else is an
`IndexError` (`none`). -/
def pyIndex {α : Type} (l : List α) (i : ℤ) : Option α :=
  if 0 ≤ i ∧ i < (l.length : ℤ) then l.get? i.toNat
  else if -(l.length : ℤ) ≤ i ∧ i < 0 then l.get? ((l.length : ℤ) + i).toNat
  else none

/-- New `base_temperature`: `base += gauss(0,0.5) * 0.1` then clamp to
`[-10, 35]`. -/
def next_base_temperature (st : StationState) (d : Draws) : ℚ :=
  clamp (-10) 35 (st.base_temperature + d.temperature_variation * 0.1)

/-- Output temperature: `round(base + seasonal_factor * 5 + gauss(0,0.3), 2)`. -/
def temperature_out (st : StationState) (s : ℚ) (d : Draws) : ℚ :=
  round2 (next_base_temperature st d + s * 5 + d.temperature_noise)

/-- New `base_humidity`: `base += gauss(0,1) * 0.2`, then add
`(-seasonal_factor * 10) * 0.1` and clamp to `[20, 100]`. -/
def next_base_humidity (st : StationState) (s : ℚ) (d : Draws) : ℚ :=
  clamp 20 100 (st.base_humidity + d.humidity_variation * 0.2 + (-s * 10) * 0.1)

/-- Output humidity: `round(base + gauss(0,2), 2)` re-clamped to `[20, 100]`. -/
def humidity_out (st : StationState) (s : ℚ) (d : Draws) : ℚ :=
  clamp 20 100 (round2 (next_base_humidity st s d + d.humidity_noise))

/-- New `base_pressure`: `base += gauss(0,0.3) * 0.05` then clamp to
`[980, 1040]`. -/
def next_base_pressure (st : StationState) (d : Draws) : ℚ :=
  clamp 980 1040 (st.base_pressure + d.pressure_variation * 0.05)

/-- Output pressure: `round(base + gauss(0,0.5), 2)` (not re-clamped). -/
def pressure_out (st : StationState) (d : Draws) : ℚ :=
  round2 (next_base_pressure st d + d.pressure_noise)

/-- New `base_wind_speed`: `base += gauss(0,0.5) * 0.1` then clamp to
`[0, 20]`. -/
def next_base_wind_speed (st : StationState) (d : Draws) : ℚ :=
  clamp 0 20 (st.base_wind_speed + d.wind_variation * 0.1)

/-- Output wind speed: gust multiplier 1.5 when `random.random() < 0.1`, plus
`gauss(0,0.3)` noise, rounded, clamped to `[0, 25]`. -/
def wind_speed_out (st : StationState) (d : Draws) : ℚ :=
  clamp 0 25 (round2 (next_base_wind_speed st d * (if d.gust_draw < 0.1 then 1.5 else 1) + d.wind_noise))

/-- New `current_direction_idx`: with `random.random() < 0.05`, add
`random.choice([-1, 1])` modulo `len(WIND_DIRECTIONS)`; otherwise unchanged. -/
def next_direction_idx (st : StationState) (d : Draws) : ℤ :=
  if d.direction_draw < 0.05 then
    (st.current_direction_idx + d.direction_choice) % (WIND_DIRECTIONS.length : ℤ)
  else st.current_direction_idx

/-- The weighted list `generate` selects the weather condition from, as a
function of the already-computed output pressure and humidity. -/
def weather_choices_for (pressure humidity : ℚ) : List (String × ℚ) :=
  if pressure < 1000 ∧ 70 < humidity then rain_weather_choices
  else if 1020 < pressure then high_pressure_choices
  else WEATHER_CONDITIONS

/-- `WeatherDataGenerator.generate`: one tick.  Returns the fresh reading and
the successor latent state; `none` models the two spots where the source could
raise (`WIND_DIRECTIONS[idx]` out of range, `choices[-1]` on an empty list) —
totality on reachable states is proved below. -/
def generate (st : StationState) (seasonal_factor : ℚ) (d : Draws) :
    Option (WeatherReading × StationState) :=
  match pyIndex WIND_DIRECTIONS (next_direction_idx st d),
        weighted_choice (weather_choices_for (pressure_out st d) (humidity_out st seasonal_factor d))
          d.condition_draw with
  | some wind_direction, some weather_condition =>
      some (⟨temperature_out st seasonal_factor d, humidity_out st seasonal_factor d,
             pressure_out st d, wind_speed_out st d, wind_direction, weather_condition⟩,
            ⟨next_base_temperature st d, next_base_humidity st seasonal_factor d,
             next_base_pressure st d, next_base_wind_speed st d,
             next_direction_idx st d, st.time_counter + 1⟩)
  | _, _ => none

/-- `_get_seasonal_factor`: `sin((hour - 4) * π / 12)` for the local hour. -/
noncomputable def get_seasonal_factor (hour : ℕ) : ℝ :=
  Real.sin (((hour : ℝ) - 4) * Real.pi / 12)

/-- The documented invariant of the latent state: every base value inside its
clamping range, direction index inside `[0, 8)`. -/
def Invariant (st : StationState) : Prop :=
  -10 ≤ st.base_temperature ∧ st.base_temperature ≤ 35 ∧
  20 ≤ st.base_humidity ∧ st.base_humidity ≤ 100 ∧
  980 ≤ st.base_pressure ∧ st.base_pressure ≤ 1040 ∧
  0 ≤ st.base_wind_speed ∧ st.base_wind_speed ≤ 20 ∧
  0 ≤ st.current_direction_idx ∧ st.current_direction_idx < 8

instance : DecidablePred Invariant := fun st => by unfold Invariant; infer_instance

/-- The per-attempt outcome of `psycopg2.connect(**DB_CONFIG)`: success,
`psycopg2.OperationalError` (the only exception `connect_to_db` catches), or
any other exception. -/
inductive ConnOutcome where
  | success : ConnOutcome
  | opError : ConnOutcome
  | otherError : ConnOutcome
  deriving DecidableEq

/-- How a run of `connect_to_db` ends.  `attempts` counts calls of
`psycopg2.connect` that were made; `slept` is the total seconds spent in
`time.sleep`.  `connected` is the `return conn` path, `exhausted` is the
`raise Exception(...)` after the loop (the spec's `ConnectionExhausted`), and
`uncaught` is an exception other than `OperationalError` escaping the
`try` block. -/
inductive ConnResult where
  | connected : ℕ → ℕ → ConnResult
  | exhausted : ℕ → ℕ → ConnResult
  | uncaught : ℕ → ℕ → ConnResult
  deriving DecidableEq

/-- `max_retries = 30` in `connect_to_db`. -/
def max_retries : ℕ := 30

/-- `retry_delay = 2` in `connect_to_db`. -/
def retry_delay : ℕ := 2

/-- The `for attempt in range(max_retries)` loop of `connect_to_db`, with the
outcome of each `psycopg2.connect` call given by `oracle`.  Arguments:
current 0-based attempt index, seconds slept so far, loop iterations left. -/
def connect_from (oracle : ℕ → ConnOutcome) : ℕ → ℕ → ℕ → ConnResult
  | attempt, slept, 0 => .exhausted attempt slept
  | attempt, slept, fuel + 1 =>
    match oracle attempt with
    | .success => .connected (attempt + 1) slept
    | .opError => connect_from oracle (attempt + 1) (slept + retry_delay) fuel
    | .otherError => .uncaught (attempt + 1) slept

/-- `connect_to_db` from the source. -/
def connect_to_db (oracle : ℕ → ConnOutcome) : ConnResult :=
  connect_from oracle 0 0 max_retries

/-- `roundTiesEven` moves its argument by at most `1/2`. -/
theorem roundTiesEven_bounds (y : ℚ) :
    y - 1/2 ≤ (roundTiesEven y : ℚ) ∧ (roundTiesEven y : ℚ) ≤ y + 1/2 := by
  have h1 : ((⌊y⌋ : ℤ) : ℚ) ≤ y := Int.floor_le y
  have h2 : y < ((⌊y⌋ : ℤ) : ℚ) + 1 := Int.lt_floor_add_one y
  unfold roundTiesEven
  split_ifs with ha hb hc <;> constructor <;> push_cast <;> linarith

/-- `round2` moves its argument by at most `1/200`. -/
theorem round2_bounds (x : ℚ) : x - 1/200 ≤ round2 x ∧ round2 x ≤ x + 1/200 := by
  obtain ⟨h1, h2⟩ := roundTiesEven_bounds (100 * x)
  unfold round2
  constructor <;> linarith

theorem le_clamp (lo hi x : ℚ) : lo ≤ clamp lo hi x := le_max_left lo (min hi x)

theorem clamp_le {lo hi : ℚ} (x : ℚ) (h : lo ≤ hi) : clamp lo hi x ≤ hi :=
  max_le h (min_le_left hi x)

/-- Anything the selection loop returns is an entry of the list. -/
theorem weighted_choice_go_mem {α : Type} {r : ℚ} {c : α} :
    ∀ {l : List (α × ℚ)} {acc : ℚ}, weighted_choice_go r acc l = some c →
      c ∈ l.map Prod.fst := by
  intro l
  induction l with
  | nil => intro acc h; simp [weighted_choice_go] at h
  | cons p rest ih =>
    intro acc h
    obtain ⟨a, w⟩ := p
    simp only [weighted_choice_go] at h
    by_cases hc : r ≤ acc + w
    · rw [if_pos hc] at h
      injection h with h
      simp [h]
    · rw [if_neg hc] at h
      exact List.mem_cons_of_mem a (ih h)

/-- Anything `_weighted_choice` returns is an entry of the list. -/
theorem weighted_choice_mem {α : Type} {choices : List (α × ℚ)} {r : ℚ} {c : α}
    (h : weighted_choice choices r = some c) : c ∈ choices.map Prod.fst := by
  unfold weighted_choice at h
  cases hg : weighted_choice_go r 0 choices with
  | some a =>
    rw [hg] at h
    injection h with h
    subst h
    exact weighted_choice_go_mem hg
  | none =>
    rw [hg] at h
    rw [Option.map_eq_some'] at h
    obtain ⟨p, hp, hpc⟩ := h
    subst hpc
    exact List.mem_map_of_mem Prod.fst (List.mem_of_getLast?_eq_some hp)

/-- On a non-empty list, `_weighted_choice` always returns a value
(the `choices[-1][0]` fallback guarantees it). -/
theorem weighted_choice_isSome {α : Type} {choices : List (α × ℚ)} (hne : choices ≠ [])
    (r : ℚ) : (weighted_choice choices r).isSome = true := by
  unfold weighted_choice
  cases hg : weighted_choice_go r 0 choices with
  | some a => simp
  | none =>
    simp only [Option.isSome_map']
    exact List.getLast?_isSome.mpr hne

/-- The selection loop computes a first-match over cumulative weights. -/
theorem weighted_choice_go_eq_find {α : Type} (r : ℚ) :
    ∀ (l : List (α × ℚ)) (acc : ℚ),
      weighted_choice_go r acc l
        = ((cumul_weights acc l).find? (fun p => decide (r ≤ p.2))).map Prod.fst := by
  intro l
  induction l with
  | nil => intro acc; simp [weighted_choice_go, cumul_weights]
  | cons p rest ih =>
    intro acc
    obtain ⟨a, w⟩ := p
    simp only [weighted_choice_go, cumul_weights]
    by_cases hc : r ≤ acc + w
    · rw [if_pos hc, List.find?_cons_of_pos _ (by simpa using hc)]
      simp
    · rw [if_neg hc, List.find?_cons_of_neg _ (by simpa using hc)]
      exact ih (acc + w)

/-- When the wind-direction index is in `[0, 8)`, `WIND_DIRECTIONS[idx]` is
defined. -/
theorem pyIndex_wind_isSome {i : ℤ} (h0 : 0 ≤ i) (h8 : i < 8) :
    (pyIndex WIND_DIRECTIONS i).isSome = true := by
  interval_cases i <;> decide

/-- The direction update keeps the index in `[0, 8)`. -/
theorem next_direction_idx_bounds (st : StationState) (d : Draws)
    (h0 : 0 ≤ st.current_direction_idx) (h8 : st.current_direction_idx < 8) :
    0 ≤ next_direction_idx st d ∧ next_direction_idx st d < 8 := by
  unfold next_direction_idx
  have hlen : (WIND_DIRECTIONS.length : ℤ) = 8 := by decide
  split_ifs with hd
  · rw [hlen]
    exact ⟨Int.emod_nonneg _ (by norm_num), Int.emod_lt_of_pos _ (by norm_num)⟩
  · exact ⟨h0, h8⟩

/-- Extraction lemma: every field of a successful `generate` call in terms of
the stage functions. -/
theorem generate_elim {st : StationState} {s : ℚ} {d : Draws} {r : WeatherReading}
    {st' : StationState} (h : generate st s d = some (r, st')) :
    r.temperature = temperature_out st s d ∧
    r.humidity = humidity_out st s d ∧
    r.pressure = pressure_out st d ∧
    r.wind_speed = wind_speed_out st d ∧
    pyIndex WIND_DIRECTIONS (next_direction_idx st d) = some r.wind_direction ∧
    weighted_choice (weather_choices_for (pressure_out st d) (humidity_out st s d))
      d.condition_draw = some r.weather_condition ∧
    st'.base_temperature = next_base_temperature st d ∧
    st'.base_humidity = next_base_humidity st s d ∧
    st'.base_pressure = next_base_pressure st d ∧
    st'.base_wind_speed = next_base_wind_speed st d ∧
    st'.current_direction_idx = next_direction_idx st d ∧
    st'.time_counter = st.time_counter + 1 := by
  unfold generate at h
  cases hp : pyIndex WIND_DIRECTIONS (next_direction_idx st d) with
  | none => rw [hp] at h; simp at h
  | some wd =>
    cases hw : weighted_choice (weather_choices_for (pressure_out st d)
        (humidity_out st s d)) d.condition_draw with
    | none => rw [hp, hw] at h; simp at h
    | some wc =>
      rw [hp, hw] at h
      injection h with h
      injection h with h1 h2
      subst h1
      subst h2
      exact ⟨rfl, rfl, rfl, rfl, rfl, rfl, rfl, rfl, rfl, rfl, rfl, rfl⟩

/-- Running the retry loop from attempt `k`: `n` transient failures followed
by a success end in `connected` with `n + 1` more attempts counted. -/
theorem connect_from_success (oracle : ℕ → ConnOutcome) :
    ∀ (n k slept fuel : ℕ), n < fuel →
      (∀ i, i < n → oracle (k + i) = .opError) → oracle (k + n) = .success →
      connect_from oracle k slept fuel
        = .connected (k + n + 1) (slept + retry_delay * n) := by
  intro n
  induction n with
  | zero =>
    intro k slept fuel hf hfail hs
    cases fuel with
    | zero => omega
    | succ f =>
      have hs0 : oracle k = .success := hs
      simp [connect_from, hs0]
  | succ m ih =>
    intro k slept fuel hf hfail hs
    cases fuel with
    | zero => omega
    | succ f =>
      have h0 : oracle k = .opError := by simpa using hfail 0 (Nat.succ_pos m)
      have hrec := ih (k + 1) (slept + retry_delay) f (by omega)
        (fun i hi => by
          have hx := hfail (i + 1) (by omega)
          rwa [show k + (i + 1) = k + 1 + i by omega] at hx)
        (by rwa [show k + (m + 1) = k + 1 + m by omega] at hs)
      simp only [connect_from, h0]
      rw [hrec]
      congr 1
      · omega
      · simp only [retry_delay]
        omega

/-- Running the retry loop from attempt `k` with every iteration failing
transiently ends in `exhausted` after all the iterations. -/
theorem connect_from_exhaust (oracle : ℕ → ConnOutcome) :
    ∀ (fuel k slept : ℕ), (∀ i, i < fuel → oracle (k + i) = .opError) →
      connect_from oracle k slept fuel
        = .exhausted (k + fuel) (slept + retry_delay * fuel) := by
  intro fuel
  induction fuel with
  | zero => intro k slept hfail; simp [connect_from]
  | succ f ih =>
    intro k slept hfail
    have h0 : oracle k = .opError := by simpa using hfail 0 (Nat.succ_pos f)
    have hrec := ih (k + 1) (slept + retry_delay) (fun i hi => by
      have hx := hfail (i + 1) (by omega)
      rwa [show k + (i + 1) = k + 1 + i by omega] at hx)
    simp only [connect_from, h0]
    rw [hrec]
    congr 1
    · omega
    · simp only [retry_delay]
      omega

/-- Running the retry loop from attempt `k`: `n` transient failures followed
by a non-`OperationalError` exception end in `uncaught` right there. -/
theorem connect_from_uncaught (oracle : ℕ → ConnOutcome) :
    ∀ (n k slept fuel : ℕ), n < fuel →
      (∀ i, i < n → oracle (k + i) = .opError) → oracle (k + n) = .otherError →
      connect_from oracle k slept fuel
        = .uncaught (k + n + 1) (slept + retry_delay * n) := by
  intro n
  induction n with
  | zero =>
    intro k slept fuel hf hfail hs
    cases fuel with
    | zero => omega
    | succ f =>
      have hs0 : oracle k = .otherError := hs
      simp [connect_from, hs0]
  | succ m ih =>
    intro k slept fuel hf hfail hs
    cases fuel with
    | zero => omega
    | succ f =>
      have h0 : oracle k = .opError := by simpa using hfail 0 (Nat.succ_pos m)
      have hrec := ih (k + 1) (slept + retry_delay) f (by omega)
        (fun i hi => by
          have hx := hfail (i + 1) (by omega)
          rwa [show k + (i + 1) = k + 1 + i by omega] at hx)
        (by rwa [show k + (m + 1) = k + 1 + m by omega] at hs)
      simp only [connect_from, h0]
      rw [hrec]
      congr 1
      · omega
      · simp only [retry_delay]
        omega

/-- C5: `connect()` makes at most 30 connection attempts with a fixed
2-second delay after each transient failure: if the first `n` attempts fail
transiently and attempt `n + 1` succeeds (`n < 30`), it returns the
connection after exactly `n + 1` attempts (having slept `2n` seconds) with no
fatal error; if all 30 attempts fail transiently, it raises the fatal
exhaustion error after exactly 30 attempts. -/
theorem c5_connect_retry (oracle : ℕ → ConnOutcome) (n : ℕ) :
    (n < 30 → (∀ i, i < n → oracle i = .opError) → oracle n = .success →
      connect_to_db oracle = .connected (n + 1) (2 * n)) ∧
    ((∀ i, i < 30 → oracle i = .opError) →
      connect_to_db oracle = .exhausted 30 60) := by
  constructor
  · intro h30 hfail hs
    have hrun := connect_from_success oracle n 0 0 30 h30
      (fun i hi => by simpa using hfail i hi) (by simpa using hs)
    unfold connect_to_db max_retries
    rw [hrun]
    congr 1
    · omega
    · simp only [retry_delay]
      omega
  · intro hfail
    have hrun := connect_from_exhaust oracle 30 0 0
      (fun i hi => by simpa using hfail i hi)
    unfold connect_to_db max_retries
    rw [hrun]
    congr 1

/-- Witness for C5: three transient failures then success connects on attempt
4 after 6 seconds of delays; thirty transient failures exhaust the retries. -/
theorem c5_witness :
    connect_to_db (fun i => if i < 3 then ConnOutcome.opError else .success)
      = .connected 4 6 ∧
    connect_to_db (fun _ => ConnOutcome.opError) = .exhausted 30 60 := by
  constructor
  · exact (c5_connect_retry (fun i => if i < 3 then ConnOutcome.opError else .success) 3).1
      (by norm_num) (fun i hi => by simp [hi]) (by simp)
  · exact (c5_connect_retry (fun _ => ConnOutcome.opError) 0).2 (fun i hi => rfl)

/-- C10: only `psycopg2.OperationalError` is treated as transient: if after
`n` transient failures attempt `n + 1` raises any other exception, that
exception propagates immediately — no retry, no extra delay beyond the `2n`
seconds already slept, and no further attempts toward the 30-attempt bound. -/
theorem c10_non_transient_propagates (oracle : ℕ → ConnOutcome) (n : ℕ)
    (h30 : n < 30) (hfail : ∀ i, i < n → oracle i = .opError)
    (ho : oracle n = .otherError) :
    connect_to_db oracle = .uncaught (n + 1) (2 * n) := by
  have hrun := connect_from_uncaught oracle n 0 0 30 h30
    (fun i hi => by simpa using hfail i hi) (by simpa using ho)
  unfold connect_to_db max_retries
  rw [hrun]
  congr 1
  · omega
  · simp only [retry_delay]
    omega

/-- Witness for C10: two transient failures then a non-transient exception
propagate on attempt 3 after only the two 2-second delays. -/
theorem c10_witness :
    connect_to_db (fun i => if i < 2 then ConnOutcome.opError else .otherError)
      = .uncaught 3 4 :=
  c10_non_transient_propagates (fun i => if i < 2 then ConnOutcome.opError else .otherError)
    2 (by norm_num) (fun i hi => by simp [hi]) (by simp)

/-- C1 (code bug): the factor computed by `_get_seasonal_factor` equals
`sin((hour - 4)·π/12)` and lies in `[-1, 1]` for every hour, but the sinusoid
attains its maximum 1 at hour 10 and its minimum -1 at hour 22; at hour 14 it
is only 1/2 and at hour 4 it is 0 — strictly below, resp. above, the actual
extremes — contradicting the documented "maximum near 14:00, minimum near
4:00". -/
theorem c1_seasonal_factor_shape :
    (∀ hour : ℕ, get_seasonal_factor hour
      = Real.sin (((hour : ℝ) - 4) * Real.pi / 12)) ∧
    (∀ hour : ℕ, -1 ≤ get_seasonal_factor hour ∧ get_seasonal_factor hour ≤ 1) ∧
    get_seasonal_factor 10 = 1 ∧
    get_seasonal_factor 22 = -1 ∧
    get_seasonal_factor 14 = 1/2 ∧
    get_seasonal_factor 4 = 0 ∧
    get_seasonal_factor 14 < get_seasonal_factor 10 ∧
    get_seasonal_factor 4 > get_seasonal_factor 22 := by
  have h10 : get_seasonal_factor 10 = 1 := by
    have e : ((((10:ℕ)) : ℝ) - 4) * Real.pi / 12 = Real.pi / 2 := by push_cast; ring
    unfold get_seasonal_factor
    rw [e, Real.sin_pi_div_two]
  have h22 : get_seasonal_factor 22 = -1 := by
    have e : ((((22:ℕ)) : ℝ) - 4) * Real.pi / 12 = Real.pi / 2 + Real.pi := by
      push_cast; ring
    unfold get_seasonal_factor
    rw [e, Real.sin_add_pi, Real.sin_pi_div_two]
  have h14 : get_seasonal_factor 14 = 1/2 := by
    have e : ((((14:ℕ)) : ℝ) - 4) * Real.pi / 12 = Real.pi - Real.pi / 6 := by
      push_cast; ring
    unfold get_seasonal_factor
    rw [e, Real.sin_pi_sub, Real.sin_pi_div_six]
  have h4 : get_seasonal_factor 4 = 0 := by
    have e : ((((4:ℕ)) : ℝ) - 4) * Real.pi / 12 = 0 := by push_cast; ring
    unfold get_seasonal_factor
    rw [e, Real.sin_zero]
  refine ⟨fun hour => rfl, fun hour => ⟨Real.neg_one_le_sin _, Real.sin_le_one _⟩,
    h10, h22, h14, h4, ?_, ?_⟩
  · rw [h14, h10]; norm_num
  · rw [h4, h22]; norm_num

/-- A concrete latent state used in witnesses. -/
def st_zero : StationState := ⟨20, 50, 1010, 3, 0, 0⟩

/-- Concrete draws: all Gaussian noises zero, no gust, no direction change,
selection draw 0. -/
def d_zero : Draws := ⟨0, 0, 0, 0, 0, 0, 0, 1/2, 0, 1/2, 1, 0⟩

/-- The reading `generate st_zero (1/2) d_zero` produces. -/
def r_zero : WeatherReading := ⟨45/2, 99/2, 1010, 3, ("N"), ("Ясно")⟩

/-- The successor state of `generate st_zero (1/2) d_zero`. -/
def st_zero' : StationState := ⟨20, 99/2, 1010, 3, 0, 1⟩

/-- The reading `generate st_zero (1/4) d_zero` produces. -/
def r_zero_b : WeatherReading := ⟨85/4, 199/4, 1010, 3, ("N"), ("Ясно")⟩

/-- The successor state of `generate st_zero (1/4) d_zero`. -/
def st_zero_b : StationState := ⟨20, 199/4, 1010, 3, 0, 1⟩

/-- A concrete state in the rain regime (low pressure, high humidity). -/
def st_rain : StationState := ⟨20, 95, 985, 3, 0, 0⟩

/-- The reading `generate st_rain (1/2) d_zero` produces. -/
def r_rain : WeatherReading := ⟨45/2, 189/2, 985, 3, ("N"), ("Пасмурно")⟩

/-- The successor state of `generate st_rain (1/2) d_zero`. -/
def st_rain' : StationState := ⟨20, 189/2, 985, 3, 0, 1⟩

/-- State with base pressure at the clamp boundary 1040 (inside the
invariant, and reachable in one step by a large positive perturbation). -/
def cex_state : StationState := ⟨20, 50, 1040, 3, 0, 0⟩

/-- Draws whose pressure noise is 0.006. -/
def cex_draws : Draws := ⟨0, 0, 0, 0, 0, 3/500, 0, 1/2, 0, 1/2, 1, 0⟩

/-- Evaluation of `generate` on `st_zero` with seasonal factor 1/2. -/
theorem generate_st_zero_half : generate st_zero (1/2) d_zero = some (r_zero, st_zero') := by
  unfold generate next_direction_idx pyIndex weighted_choice weighted_choice_go
    weather_choices_for temperature_out humidity_out pressure_out wind_speed_out
    next_base_temperature next_base_humidity next_base_pressure next_base_wind_speed
    clamp round2 roundTiesEven st_zero d_zero r_zero st_zero' WIND_DIRECTIONS
    rain_weather_choices high_pressure_choices WEATHER_CONDITIONS
  norm_num

/-- Evaluation of `generate` on `st_zero` with seasonal factor 1/4. -/
theorem generate_st_zero_quarter :
    generate st_zero (1/4) d_zero = some (r_zero_b, st_zero_b) := by
  unfold generate next_direction_idx pyIndex weighted_choice weighted_choice_go
    weather_choices_for temperature_out humidity_out pressure_out wind_speed_out
    next_base_temperature next_base_humidity next_base_pressure next_base_wind_speed
    clamp round2 roundTiesEven st_zero d_zero r_zero_b st_zero_b WIND_DIRECTIONS
    rain_weather_choices high_pressure_choices WEATHER_CONDITIONS
  norm_num

/-- Evaluation of `generate` on the rain-regime state `st_rain`. -/
theorem generate_st_rain_half : generate st_rain (1/2) d_zero = some (r_rain, st_rain') := by
  unfold generate next_direction_idx pyIndex weighted_choice weighted_choice_go
    weather_choices_for temperature_out humidity_out pressure_out wind_speed_out
    next_base_temperature next_base_humidity next_base_pressure next_base_wind_speed
    clamp round2 roundTiesEven st_rain d_zero r_rain st_rain' WIND_DIRECTIONS
    rain_weather_choices high_pressure_choices WEATHER_CONDITIONS
  norm_num

/-- C3: the invariant holds after construction (for seed draws in their
documented ranges) and is preserved by every `generate` call, whatever the
seasonal factor and the draws. -/
theorem c3_state_invariant :
    (∀ d : InitDraws, InitRange d → Invariant (init_state d)) ∧
    (∀ (st : StationState) (s : ℚ) (d : Draws) (r : WeatherReading)
      (st' : StationState),
      Invariant st → generate st s d = some (r, st') → Invariant st') := by
  constructor
  · intro d hd
    obtain ⟨h1, h2, h3, h4, h5, h6, h7, h8, h9, h10⟩ := hd
    unfold Invariant
    simp only [init_state]
    exact ⟨by linarith, by linarith, by linarith, by linarith, by linarith,
      by linarith, by linarith, by linarith, h9, by omega⟩
  · intro st s d r st' hst h
    obtain ⟨-, -, -, -, -, -, -, -, hidx0, hidx8⟩ := hst
    obtain ⟨-, -, -, -, -, -, hbt, hbh, hbp, hbw, hidx, -⟩ := generate_elim h
    obtain ⟨hd0, hd8⟩ := next_direction_idx_bounds st d hidx0 hidx8
    unfold Invariant
    rw [hbt, hbh, hbp, hbw, hidx]
    unfold next_base_temperature next_base_humidity next_base_pressure next_base_wind_speed
    exact ⟨le_clamp _ _ _, clamp_le _ (by norm_num), le_clamp _ _ _,
      clamp_le _ (by norm_num), le_clamp _ _ _, clamp_le _ (by norm_num),
      le_clamp _ _ _, clamp_le _ (by norm_num), hd0, hd8⟩

/-- Witness for C3 at concrete seed draws, state, and call. -/
theorem c3_witness :
    Invariant (init_state ⟨20, 50, 1010, 3, 0⟩) ∧ Invariant st_zero' := by
  constructor
  · exact c3_state_invariant.1 ⟨20, 50, 1010, 3, 0⟩ (by unfold InitRange; norm_num)
  · exact c3_state_invariant.2 st_zero (1/2) d_zero r_zero st_zero'
      (by unfold Invariant st_zero; norm_num) generate_st_zero_half

/-- C9: on any state satisfying the invariant (so on any reachable state),
for every seasonal factor and all draws, `generate` returns a complete
reading: the compass indexing and the weighted selection cannot fail. -/
theorem c9_generate_total (st : StationState) (s : ℚ) (d : Draws)
    (hst : Invariant st) : (generate st s d).isSome = true := by
  obtain ⟨-, -, -, -, -, -, -, -, hidx0, hidx8⟩ := hst
  obtain ⟨h0, h8⟩ := next_direction_idx_bounds st d hidx0 hidx8
  have hp := pyIndex_wind_isSome h0 h8
  rw [Option.isSome_iff_exists] at hp
  obtain ⟨wd, hwd⟩ := hp
  have hne : weather_choices_for (pressure_out st d) (humidity_out st s d) ≠ [] := by
    unfold weather_choices_for
    split_ifs <;> decide
  have hw := weighted_choice_isSome hne d.condition_draw
  rw [Option.isSome_iff_exists] at hw
  obtain ⟨wc, hwc⟩ := hw
  unfold generate
  rw [hwd, hwc]
  rfl

/-- Witness for C9 at a concrete state and draws. -/
theorem c9_witness : (generate st_zero (1/2) d_zero).isSome = true :=
  c9_generate_total st_zero (1/2) d_zero (by unfold Invariant st_zero; norm_num)

/-- C7: in a single `generate` call the wind-direction index either stays put
(direction draw ≥ 0.05) or moves one circular step ±1 modulo 8 (draw < 0.05),
and the returned label is the compass entry at the resulting index. -/
theorem c7_wind_direction_step (st : StationState) (s : ℚ) (d : Draws)
    (r : WeatherReading) (st' : StationState)
    (hc : d.direction_choice = 1 ∨ d.direction_choice = -1)
    (h : generate st s d = some (r, st')) :
    ((0.05 ≤ d.direction_draw ∧
        st'.current_direction_idx = st.current_direction_idx) ∨
      (d.direction_draw < 0.05 ∧
        (st'.current_direction_idx = (st.current_direction_idx + 1) % 8 ∨
         st'.current_direction_idx = (st.current_direction_idx - 1) % 8))) ∧
    pyIndex WIND_DIRECTIONS st'.current_direction_idx = some r.wind_direction := by
  obtain ⟨-, -, -, -, hpy, -, -, -, -, -, hidx, -⟩ := generate_elim h
  constructor
  · rw [hidx]
    unfold next_direction_idx
    have hlen : (WIND_DIRECTIONS.length : ℤ) = 8 := by decide
    rw [hlen]
    split_ifs with hd
    · right
      refine ⟨hd, ?_⟩
      rcases hc with hc | hc
      · rw [hc]
        left
        rfl
      · rw [hc]
        right
        rfl
    · left
      exact ⟨not_lt.mp hd, rfl⟩
  · rw [hidx]
    exact hpy

/-- Witness for C7 at a concrete call. -/
theorem c7_witness :
    ((0.05 ≤ d_zero.direction_draw ∧
        st_zero'.current_direction_idx = st_zero.current_direction_idx) ∨
      (d_zero.direction_draw < 0.05 ∧
        (st_zero'.current_direction_idx = (st_zero.current_direction_idx + 1) % 8 ∨
         st_zero'.current_direction_idx = (st_zero.current_direction_idx - 1) % 8))) ∧
    pyIndex WIND_DIRECTIONS st_zero'.current_direction_idx
      = some r_zero.wind_direction :=
  c7_wind_direction_step st_zero (1/2) d_zero r_zero st_zero' (Or.inl rfl)
    generate_st_zero_half

/-- C8: the per-call seasonal addend is never persisted: the post-call base
temperature is the clamp of the pre-call base plus that call's scaled
Gaussian perturbation, identical for any two seasonal factors (hence for any
two hours); the factor enters only the returned temperature output. -/
theorem c8_seasonal_not_persisted (st : StationState) (s₁ s₂ : ℚ) (d : Draws)
    (r₁ : WeatherReading) (st₁ : StationState) (r₂ : WeatherReading)
    (st₂ : StationState) (h₁ : generate st s₁ d = some (r₁, st₁))
    (h₂ : generate st s₂ d = some (r₂, st₂)) :
    st₁.base_temperature = st₂.base_temperature ∧
    st₁.base_temperature
      = clamp (-10) 35 (st.base_temperature + d.temperature_variation * 0.1) ∧
    r₁.temperature = round2 (st₁.base_temperature + s₁ * 5 + d.temperature_noise) := by
  obtain ⟨ht1, -, -, -, -, -, hb1, -, -, -, -, -⟩ := generate_elim h₁
  obtain ⟨-, -, -, -, -, -, hb2, -, -, -, -, -⟩ := generate_elim h₂
  refine ⟨?_, ?_, ?_⟩
  · rw [hb1, hb2]
  · rw [hb1]
    rfl
  · rw [ht1, hb1]
    rfl

/-- Witness for C8: hours with seasonal factors 1/2 and 1/4 leave the same
base temperature. -/
theorem c8_witness :
    st_zero'.base_temperature = st_zero_b.base_temperature ∧
    st_zero'.base_temperature
      = clamp (-10) 35 (st_zero.base_temperature + d_zero.temperature_variation * 0.1) ∧
    r_zero.temperature
      = round2 (st_zero'.base_temperature + (1/2) * 5 + d_zero.temperature_noise) :=
  c8_seasonal_not_persisted st_zero (1/2) (1/4) d_zero r_zero st_zero' r_zero_b
    st_zero_b generate_st_zero_half generate_st_zero_quarter

/-- C2: the weather condition of every `generate` call is produced by the
source's weighted selection over the regime list determined by the
already-computed output pressure and humidity, and therefore always lands in
that regime's label set. -/
theorem c2_condition_regimes (st : StationState) (s : ℚ) (d : Draws)
    (r : WeatherReading) (st' : StationState)
    (h : generate st s d = some (r, st')) :
    ((r.pressure < 1000 ∧ 70 < r.humidity) →
      weighted_choice rain_weather_choices d.condition_draw
        = some r.weather_condition ∧
      r.weather_condition
        ∈ [("Пасмурно"), ("Небольшой дождь"), ("Дождь"), ("Гроза"), ("Туман")]) ∧
    (¬(r.pressure < 1000 ∧ 70 < r.humidity) → 1020 < r.pressure →
      weighted_choice high_pressure_choices d.condition_draw
        = some r.weather_condition ∧
      r.weather_condition ∈ [("Ясно"), ("Малооблачно"), ("Облачно")]) ∧
    (¬(r.pressure < 1000 ∧ 70 < r.humidity) → ¬(1020 < r.pressure) →
      weighted_choice WEATHER_CONDITIONS d.condition_draw
        = some r.weather_condition ∧
      r.weather_condition
        ∈ [("Ясно"), ("Малооблачно"), ("Облачно"), ("Пасмурно"),
           ("Небольшой дождь"), ("Дождь"), ("Гроза"), ("Туман")]) := by
  obtain ⟨-, hh, hp, -, -, hwc, -, -, -, -, -, -⟩ := generate_elim h
  refine ⟨?_, ?_, ?_⟩
  · intro hcond
    rw [hp, hh] at hcond
    unfold weather_choices_for at hwc
    rw [if_pos hcond] at hwc
    refine ⟨hwc, ?_⟩
    have hm := weighted_choice_mem hwc
    simpa [rain_weather_choices] using hm
  · intro hnc hhigh
    rw [hp, hh] at hnc
    rw [hp] at hhigh
    unfold weather_choices_for at hwc
    rw [if_neg hnc, if_pos hhigh] at hwc
    refine ⟨hwc, ?_⟩
    have hm := weighted_choice_mem hwc
    simpa [high_pressure_choices] using hm
  · intro hnc hlow
    rw [hp, hh] at hnc
    rw [hp] at hlow
    unfold weather_choices_for at hwc
    rw [if_neg hnc, if_neg hlow] at hwc
    refine ⟨hwc, ?_⟩
    have hm := weighted_choice_mem hwc
    simpa [WEATHER_CONDITIONS] using hm

/-- Witness for C2 in the rain regime: output pressure 985 < 1000, humidity
94.5 > 70, condition drawn from the rain list. -/
theorem c2_witness :
    weighted_choice rain_weather_choices d_zero.condition_draw
      = some r_rain.weather_condition ∧
    r_rain.weather_condition
      ∈ [("Пасмурно"), ("Небольшой дождь"), ("Дождь"), ("Гроза"), ("Туман")] :=
  (c2_condition_regimes st_rain (1/2) d_zero r_rain st_rain' generate_st_rain_half).1
    (by unfold r_rain; norm_num)

/-- C4 counterexample: at base pressure 1040 (allowed by the invariant and
reachable in one step) with pressure noise n = 0.006, the output pressure is
round2(1040.006) = 1040.01 > 1040 + |n|, so the claimed bound
[980 − |n|, 1040 + |n|] fails without a rounding tolerance. -/
theorem c4_rounding_counterexample :
    Invariant cex_state ∧
    (generate cex_state 0 cex_draws).map (fun p => p.1.pressure)
      = some ((1040.01 : ℚ)) ∧
    ¬((1040.01 : ℚ) ≤ 1040 + |cex_draws.pressure_noise|) := by
  have hgen : generate cex_state 0 cex_draws
      = some (⟨20, 50, 104001/100, 3, ("N"), ("Ясно")⟩, ⟨20, 50, 1040, 3, 0, 1⟩) := by
    unfold generate next_direction_idx pyIndex weighted_choice weighted_choice_go
      weather_choices_for temperature_out humidity_out pressure_out wind_speed_out
      next_base_temperature next_base_humidity next_base_pressure next_base_wind_speed
      clamp round2 roundTiesEven cex_state cex_draws WIND_DIRECTIONS
      rain_weather_choices high_pressure_choices WEATHER_CONDITIONS
    norm_num
  have habs : |cex_draws.pressure_noise| = 3/500 := by
    unfold cex_draws
    rw [abs_of_nonneg (by norm_num)]
  refine ⟨?_, ?_, ?_⟩
  · unfold Invariant cex_state
    norm_num
  · rw [hgen]
    norm_num [Option.map_some']
  · rw [habs]
    norm_num

/-- C4 (amended): output humidity lies exactly in [20, 100] and wind speed
exactly in [0, 25]; output pressure lies in [980 − |n| − 1/200,
1040 + |n| + 1/200] where n is the call's pressure noise, and output
temperature in [−15 − |m| − 1/200, 40 + |m| + 1/200] where m is its noise —
1/200 being the half-step of rounding to two decimals. -/
theorem c4_output_bounds (st : StationState) (s : ℚ) (d : Draws)
    (r : WeatherReading) (st' : StationState) (hs1 : -1 ≤ s) (hs2 : s ≤ 1)
    (h : generate st s d = some (r, st')) :
    (20 ≤ r.humidity ∧ r.humidity ≤ 100) ∧
    (0 ≤ r.wind_speed ∧ r.wind_speed ≤ 25) ∧
    (980 - |d.pressure_noise| - 1/200 ≤ r.pressure ∧
      r.pressure ≤ 1040 + |d.pressure_noise| + 1/200) ∧
    (-15 - |d.temperature_noise| - 1/200 ≤ r.temperature ∧
      r.temperature ≤ 40 + |d.temperature_noise| + 1/200) := by
  obtain ⟨ht, hh, hp, hw, -, -, -, -, -, -, -, -⟩ := generate_elim h
  refine ⟨?_, ?_, ?_, ?_⟩
  · rw [hh]
    unfold humidity_out
    exact ⟨le_clamp _ _ _, clamp_le _ (by norm_num)⟩
  · rw [hw]
    unfold wind_speed_out
    exact ⟨le_clamp _ _ _, clamp_le _ (by norm_num)⟩
  · rw [hp]
    unfold pressure_out
    obtain ⟨hr1, hr2⟩ := round2_bounds (next_base_pressure st d + d.pressure_noise)
    have hb1 : (980 : ℚ) ≤ next_base_pressure st d := le_clamp _ _ _
    have hb2 : next_base_pressure st d ≤ 1040 := clamp_le _ (by norm_num)
    have ha1 : d.pressure_noise ≤ |d.pressure_noise| := le_abs_self _
    have ha2 : -|d.pressure_noise| ≤ d.pressure_noise := neg_abs_le _
    constructor <;> linarith
  · rw [ht]
    unfold temperature_out
    obtain ⟨hr1, hr2⟩ :=
      round2_bounds (next_base_temperature st d + s * 5 + d.temperature_noise)
    have hb1 : (-10 : ℚ) ≤ next_base_temperature st d := le_clamp _ _ _
    have hb2 : next_base_temperature st d ≤ 35 := clamp_le _ (by norm_num)
    have ha1 : d.temperature_noise ≤ |d.temperature_noise| := le_abs_self _
    have ha2 : -|d.temperature_noise| ≤ d.temperature_noise := neg_abs_le _
    constructor <;> linarith

/-- Witness for the amended C4 bounds at a concrete call. -/
theorem c4_witness :
    (20 ≤ r_zero.humidity ∧ r_zero.humidity ≤ 100) ∧
    (0 ≤ r_zero.wind_speed ∧ r_zero.wind_speed ≤ 25) ∧
    (980 - |d_zero.pressure_noise| - 1/200 ≤ r_zero.pressure ∧
      r_zero.pressure ≤ 1040 + |d_zero.pressure_noise| + 1/200) ∧
    (-15 - |d_zero.temperature_noise| - 1/200 ≤ r_zero.temperature ∧
      r_zero.temperature ≤ 40 + |d_zero.temperature_noise| + 1/200) :=
  c4_output_bounds st_zero (1/2) d_zero r_zero st_zero' (by norm_num) (by norm_num)
    generate_st_zero_half

/-- C6: the selection loop returns the first entry whose cumulative weight
reaches the draw, falling back to the last entry (equivalence with the
spec-side first-match description on every non-empty list), and on
[(A, 1), (B, 0)] every draw in [0, total] yields A. -/
theorem c6_weighted_selection :
    (∀ (choices : List (String × ℚ)) (r : ℚ), choices ≠ [] →
      weighted_choice choices r = spec_first_match choices r) ∧
    (∀ r : ℚ, 0 ≤ r → r ≤ total_weight [(("A" : String), 1), (("B"), 0)] →
      weighted_choice [(("A" : String), 1), (("B"), 0)] r = some ("A")) := by
  constructor
  · intro choices r _
    unfold weighted_choice spec_first_match
    rw [weighted_choice_go_eq_find r choices 0]
    cases hf : (cumul_weights 0 choices).find? (fun p => decide (r ≤ p.2)) with
    | none => simp
    | some p => simp
  · intro r h0 h1
    have ht : total_weight [(("A" : String), 1), (("B"), 0)] = 1 := by
      unfold total_weight
      norm_num
    rw [ht] at h1
    unfold weighted_choice
    have hgo : weighted_choice_go r 0 [(("A" : String), 1), (("B"), 0)] = some ("A") := by
      unfold weighted_choice_go
      rw [if_pos (by linarith)]
    rw [hgo]

/-- Witness for C6 at the draw 1/2. -/
theorem c6_witness :
    weighted_choice [(("A" : String), 1), (("B"), 0)] (1/2)
      = spec_first_match [(("A" : String), 1), (("B"), 0)] (1/2) ∧
    weighted_choice [(("A" : String), 1), (("B"), 0)] (1/2) = some ("A") :=
  ⟨c6_weighted_selection.1 [(("A" : String), 1), (("B"), 0)] (1/2) (by decide),
   c6_weighted_selection.2 (1/2) (by norm_num) (by unfold total_weight; norm_num)⟩

end Weather
